import Mathlib

/-!
Verification of the easyshell recursive-shell engine (src/easyshell/base.py
and src/easyshell/basic_shell.py) against its natural-language specification.
The Python source is shallowly embedded: dynamically typed exit-directive
values become an inductive type, the per-line decision of the dispatch loop
becomes a pure step function, the registry builders become folds over the
declared handler bindings, and raised Python exceptions become Except errors.
-/

namespace EasyShell

/-- The dynamically typed values a command handler may return as an exit
directive in base.py: None (and other falsy values treated alike by the loop),
a bool (True means exit to parent), a string (root / all), or an int (the
depth of the shell to exit to). -/
inductive Directive where
  | none
  | bool (b : Bool)
  | str (s : String)
  | int (n : Int)
deriving DecidableEq

/-- Python equality (the == operator) between directive values. Distinct
types compare unequal except that a bool compares equal to the int of the
same truth value: True == 1 and False == 0 hold in Python. This aliasing is
what the set membership test in cmdloop relies on. -/
def pyEq : Directive → Directive → Bool
  | Directive.none, Directive.none => true
  | Directive.bool a, Directive.bool b => a == b
  | Directive.bool b, Directive.int n => (if b then (1 : Int) else 0) == n
  | Directive.int n, Directive.bool b => n == (if b then (1 : Int) else 0)
  | Directive.int m, Directive.int n => m == n
  | Directive.str s, Directive.str t => s == t
  | _, _ => false

/-- Outcome of one iteration of the cmdloop while-loop for a given exit
directive: either the loop breaks (and cmdloop returns the directive
unchanged) or it keeps running (continue, or fall-through to the next
prompt). -/
inductive StepResult where
  | terminated (d : Directive)
  | running
deriving DecidableEq

/-- The checks of base.py cmdloop lines 651-654 that run after the two
integer comparisons: break when the mode stack is non-empty and the
directive equals the string root, then break when the directive is a member
of the set containing the string all and True. Python set membership uses
the == operator, so an int 1 is a member of that set because 1 == True. -/
def afterIntChecks (stackLen : Nat) (ed : Directive) : StepResult :=
  if stackLen ≠ 0 ∧ pyEq ed (Directive.str "root") = true then
    StepResult.terminated ed
  else if pyEq ed (Directive.str "all") = true ∨ pyEq ed (Directive.bool true) = true then
    StepResult.terminated ed
  else
    StepResult.running

/-- One iteration of the dispatch loop of base.py cmdloop (lines 646-654),
given the current mode-stack depth and the exit directive produced by the
line just executed. The test type(exit_directive) is int matches exactly the
int constructor (in Python, type(True) is int is False), and a break returns
the directive unchanged from cmdloop. -/
def cmdloop_step (stackLen : Nat) (ed : Directive) : StepResult :=
  match ed with
  | Directive.int n =>
      if (stackLen : Int) > n then StepResult.terminated ed
      else if (stackLen : Int) = n then StepResult.running
      else afterIntChecks stackLen ed
  | _ => afterIntChecks stackLen ed

/-- base.py launch_subshell, lines 529-539: after the child cmdloop returns
its exit directive, the parent returns it unchanged unless it is the object
True (the test is the identity test, exit_directive is True), in which case
the method falls off the end and returns None. The history file handling
around this translation is external I/O and is not modelled. -/
def launch_subshell_translate (child_exit : Directive) : Directive :=
  if child_exit = Directive.bool true then Directive.none else child_exit

/-- The value returned by a handler decorated with the subshell decorator
before the launch decision: a falsy value (None, False, an empty string), a
truthy prompt string, or a 2-tuple of prompt string and context dictionary.
-/
inductive SubshellRetval where
  | falsy
  | prompt (s : String)
  | promptContext (s : String) (ctx : List (String × String))
deriving DecidableEq

/-- Python truthiness of a subshell return value: None and False are falsy,
a string is truthy iff non-empty, and a 2-tuple is always truthy. -/
def SubshellRetval.truthy : SubshellRetval → Bool
  | SubshellRetval.falsy => false
  | SubshellRetval.prompt s => s ≠ ""
  | SubshellRetval.promptContext _ _ => true

/-- The inner function of the subshell decorator (base.py lines 305-319):
when the wrapped handler returns a falsy value, no subshell is launched and
the wrapper returns None; otherwise launch_subshell runs the child loop and
its translated directive is returned. The first component records whether a
child session was created; child_exit is the directive the child cmdloop
would return. -/
def subshell_inner (retval : SubshellRetval) (child_exit : Directive) :
    Bool × Directive :=
  if retval.truthy = false then (false, Directive.none)
  else (true, launch_subshell_translate child_exit)

/-- The validated nargs argument of the command decorator (base.py lines
96-112): one of the strings star, question mark, plus, a non-negative
integer, or a collection of non-negative integers (converted to a list by
the decorator before use). -/
inductive Nargs where
  | star
  | quest
  | plus
  | exact (n : Nat)
  | nlist (l : List Nat)
deriving DecidableEq

/-- The data interpolated into the error message the arity check writes to
self.stderr on a violation (base.py lines 123-141): the command name, the
declared nargs rule (rendered as the expected shape), the number of
arguments provided, and the argument values themselves. -/
structure ArityMsg where
  cmd : String
  rule : Nargs
  provided : Nat
  args : List String
deriving DecidableEq

/-- Result of calling the wrapper the command decorator builds around a
handler: either the underlying handler was invoked and produced a value, or
the arity check failed, the error message was written to the error sink and
the wrapper returned None without invoking the handler. -/
inductive GuardResult (α : Type) where
  | invoked (v : α)
  | rejected (e : ArityMsg)
deriving DecidableEq

/-- The inner function of the command decorator (base.py lines 115-143):
check len(args) against nargs; on a violation write the message (modelled
structurally by ArityMsg) and return None without calling f; otherwise
return f(self, cmd, args). -/
def command_inner {α : Type} (nargs : Nargs) (f : String → List String → α)
    (cmd : String) (args : List String) : GuardResult α :=
  let n := args.length
  match nargs with
  | Nargs.star => GuardResult.invoked (f cmd args)
  | Nargs.quest =>
      if 1 < n then GuardResult.rejected ⟨cmd, Nargs.quest, n, args⟩
      else GuardResult.invoked (f cmd args)
  | Nargs.plus =>
      if n = 0 then GuardResult.rejected ⟨cmd, Nargs.plus, n, args⟩
      else GuardResult.invoked (f cmd args)
  | Nargs.exact N =>
      if n ≠ N then GuardResult.rejected ⟨cmd, Nargs.exact N, n, args⟩
      else GuardResult.invoked (f cmd args)
  | Nargs.nlist l =>
      if ¬ n ∈ l then GuardResult.rejected ⟨cmd, Nargs.nlist l, n, args⟩
      else GuardResult.invoked (f cmd args)

/-- The delegation condition exactly as the specification states it: star
always delegates, question mark delegates iff n ≤ 1, plus iff n ≥ 1, an
exact integer iff n equals it, a list iff n is a member. -/
def arityAllows (nargs : Nargs) (n : Nat) : Bool :=
  match nargs with
  | Nargs.star => true
  | Nargs.quest => n ≤ 1
  | Nargs.plus => 1 ≤ n
  | Nargs.exact N => n == N
  | Nargs.nlist l => l.contains n

/-- The end-of-file marker, chr(ord of D minus 64) = the character with code
point 4, that cmdloop substitutes for the input line on EOFError. -/
def EOF : String := "\x04"

/-- The comment test of base.py line 685: right-strip trailing whitespace
from the line, then ask whether it starts with the pound character. -/
def isCommentLine (line : String) : Bool :=
  match (line.data.reverse.dropWhile Char.isWhitespace).reverse with
  | [] => false
  | c :: _ => c == '#'

/-- The command and argument resolution stage of base.py __exec_line__
(lines 683-704). The POSIX tokenizer shlex.split is the parameter split (an
external collaborator), and parse_line is the possibly overridden parsing
rule of the shell type. Returns nothing when the line is ignored (empty, a
comment after right-stripping, or no tokens); the EOF line dispatches as the
exit command; a line whose first default-rule token is registered internal
uses the default rule (first token is the command, rest are the arguments);
every other line is given to parse_line. -/
def exec_line_resolve (split : String → List String)
    (internalCmds : List String) (parse_line : String → String × List String)
    (line : String) : Option (String × List String) :=
  if line = "" ∨ isCommentLine line = true then Option.none
  else
    match split line with
    | [] => Option.none
    | t :: ts =>
        if line = EOF then Option.some ("exit", [])
        else if internalCmds.contains t then Option.some (t, ts)
        else Option.some (parse_line line)

/-- One command-decorated attribute of a shell class as the registry builder
sees it (base.py lines 928-931): the method name and the contents of its
dunder command dictionary. -/
structure CmdDecl where
  methodName : String
  commands : List String
  visible : Bool
  internal : Bool
deriving DecidableEq

/-- A Python exception raised during registry construction. The source
executes raise PyShellError(message), but the name PyShellError is defined
nowhere in the package, so the name lookup itself raises NameError before
the message — which would have named the colliding command and both methods
— is ever built. -/
inductive PyError where
  | nameError (missing : String)
deriving DecidableEq

/-- The three insertion-ordered command maps built by base.py
__build_cmd_maps: all commands, the visible subset, the internal subset,
each mapping a command name to the registered method name. -/
structure CmdMaps where
  all : List (String × String)
  visible : List (String × String)
  internal : List (String × String)
deriving DecidableEq

/-- base.py __build_cmd_maps (lines 912-942): fold over the command-
decorated attributes in dir order and over each of their command names; a
name already present in the all-commands map triggers the raise site, which
fails with NameError on the undefined PyShellError; otherwise the name is
added to the all map and to the visible and internal maps according to the
flags. -/
def build_cmd_maps (decls : List CmdDecl) : Except PyError CmdMaps :=
  decls.foldlM
    (fun maps d =>
      d.commands.foldlM
        (fun m cmd =>
          if (m.all.lookup cmd).isSome then
            Except.error (PyError.nameError "PyShellError")
          else
            Except.ok
              { all := m.all ++ [(cmd, d.methodName)]
                visible :=
                  m.visible ++ (if d.visible then [(cmd, d.methodName)] else [])
                internal :=
                  m.internal ++ (if d.internal then [(cmd, d.methodName)] else []) })
        maps)
    ⟨[], [], []⟩

/-- A helper- or completer-decorated attribute: the method name and its list
of target command names (base.py lines 201-203 and 250-252). -/
structure TargetDecl where
  methodName : String
  targets : List String
deriving DecidableEq

/-- base.py __build_helper_map (lines 944-968): fold over the helper-
decorated attributes; a duplicate target command triggers the raise site,
which fails with NameError on the undefined PyShellError. -/
def build_helper_map (decls : List TargetDecl) :
    Except PyError (List (String × String)) :=
  decls.foldlM
    (fun ret d =>
      d.targets.foldlM
        (fun r cmd =>
          if (r.lookup cmd).isSome then
            Except.error (PyError.nameError "PyShellError")
          else Except.ok (r ++ [(cmd, d.methodName)]))
        ret)
    []

/-- base.py __build_completer_map (lines 970-995): identical structure to
the helper map builder, over the completer-decorated attributes. -/
def build_completer_map (decls : List TargetDecl) :
    Except PyError (List (String × String)) :=
  decls.foldlM
    (fun ret d =>
      d.targets.foldlM
        (fun r cmd =>
          if (r.lookup cmd).isSome then
            Except.error (PyError.nameError "PyShellError")
          else Except.ok (r ++ [(cmd, d.methodName)]))
        ret)
    []

/-- Python list indexing, as used on the completion-candidate cache: the
element when the index is in range, otherwise an IndexError (modelled as the
error case). The readline state argument is never negative. -/
def pyIndex (l : List String) (i : Nat) : Except Unit String :=
  match l.get? i with
  | Option.some s => Except.ok s
  | Option.none => Except.error ()

/-- The Python test name.startswith(text): the character sequence of text
is a prefix of that of name. -/
def pyStartsWith (name text : String) : Bool :=
  text.data.isPrefixOf name.data

/-- base.py __complete_cmds (lines 827-829): the visible command names that
start with the given text. -/
def complete_cmds (visibleCmds : List String) (text : String) : List String :=
  visibleCmds.filter (fun name => pyStartsWith name text)

/-- base.py __driver_completer (lines 778-825). The candidate cache
__completion_candidates is passed in and returned explicitly together with
the value handed back to the editing facility; an IndexError raised by
indexing the cache is the Except error case. On a non-zero state the cached
list is indexed directly. On state zero with no tokens, or one token still
equal to the text under completion, the cache is rebuilt from the visible
command names. Otherwise the first token selects a registered completer
method (completerFn models the bound methods, assumed to return normally;
the arguments drop the in-progress word when text is non-empty), or the
cache becomes empty when none is registered. -/
def driver_completer (cache : List String) (visibleCmds : List String)
    (completerMap : List String)
    (completerFn : String → Option (List String) → String → List String)
    (toks : List String) (text : String) (state : Nat) :
    List String × Except Unit String :=
  if state ≠ 0 then
    (cache, pyIndex cache state)
  else if toks = [] ∨ (toks.length = 1 ∧ text = toks.headD "") then
    let cands := complete_cmds visibleCmds text
    (cands, pyIndex cands state)
  else
    let cmd := toks.headD ""
    let args : Option (List String) :=
      if 1 < toks.length then Option.some toks.tail else Option.none
    let args : Option (List String) :=
      match args with
      | Option.some l =>
          if text ≠ "" ∧ l ≠ [] then Option.some l.dropLast else Option.some l
      | Option.none => Option.none
    let cands :=
      if completerMap.contains cmd then completerFn cmd args text else []
    (cands, pyIndex cands state)

/-- One frame of the mode stack: the record _ShellBase._Mode (base.py lines
350-367). Its init sets exactly shell (a reference to the parent shell
object, modelled as an opaque identifier), cmd, args, prompt and context (a
string-keyed dictionary, modelled as an association list); no attribute
named prompt_display is ever set. -/
structure Mode where
  shell : Nat
  cmd : String
  args : List String
  prompt : String
  context : List (String × String)
deriving DecidableEq

/-- The attribute lookup mode.prompt_display executed by the dump loop of
basic_shell.py line 145: _Mode defines no such attribute (its field is
prompt), so the lookup raises AttributeError. -/
def Mode.prompt_display_attr (_ : Mode) : Except String String :=
  Except.error "AttributeError: prompt_display"

/-- Left-justify within the given width, the format spec used by the index
column of the stack dump. -/
def ljust (s : String) (w : Nat) : String :=
  s ++ String.mk (List.replicate (w - s.length) ' ')

/-- The tree connector written before each frame of the stack dump. -/
def treeConnector : String := "└── "

/-- Python repr of the argument list as interpolated into dump and error
messages; the quoting of the individual strings is elided. -/
def pyArgsRepr (l : List String) : String :=
  "[" ++ String.intercalate ", " l ++ "]"

/-- The body of the dump loop of basic_shell.py lines 140-148 for frame i:
the line text, built after the attribute lookup on prompt_display, which
always fails. -/
def dump_frame (index_str : Nat → String) (i : Nat) (mode : Mode) :
    Except String String :=
  (mode.prompt_display_attr).map (fun pd =>
    index_str (i + 1) ++ String.mk (List.replicate (treeConnector.length * i) ' ')
      ++ treeConnector ++ pd ++ ": " ++ mode.cmd ++ "@" ++ pyArgsRepr mode.args)

/-- The dump loop over the frames, collecting the writes made before an
exception escapes. -/
def dump_frames (index_str : Nat → String) :
    Nat → List Mode → List String × Except String Unit
  | _, [] => ([], Except.ok ())
  | i, m :: ms =>
      match dump_frame index_str i m with
      | Except.error e => ([], Except.error e)
      | Except.ok line =>
          let rest := dump_frames index_str (i + 1) ms
          (line :: "\n" :: rest.1, rest.2)

/-- basic_shell.py __dump_stack (lines 122-148): compute the index column
width from the stack depth, write the root line, then write one line per
frame; the writes made and the escaping exception, if any, are returned. -/
def dump_stack (root_prompt : String) (stack : List Mode) :
    List String × Except String Unit :=
  let maxdepth := stack.length
  let maxdepth_strlen := (toString maxdepth).length
  let index_width := (4 - (-(maxdepth_strlen : Int)) % 4 + 4).toNat
  let index_str := fun (i : Nat) => ljust (toString i) index_width
  let rest := dump_frames index_str 0 stack
  ([ljust (toString 0) index_width ++ root_prompt, "\n"] ++ rest.1, rest.2)

/-- Accumulator loop for decimal digit parsing: fails on any non-digit
character. -/
def parseDigitsAux : List Char → Nat → Option Nat
  | [], acc => Option.some acc
  | c :: cs, acc =>
      if c.isDigit then parseDigitsAux cs (acc * 10 + (c.toNat - 48))
      else Option.none

/-- The Python int() conversion applied to the depth argument: an optional
minus sign followed by at least one decimal digit (the tolerance of int()
for surrounding whitespace, a plus sign and digit underscores is elided).
Failure models the ValueError the source catches. -/
def pyInt? (s : String) : Option Int :=
  match s.data with
  | [] => Option.none
  | '-' :: cs =>
      match cs with
      | [] => Option.none
      | _ => (parseDigitsAux cs 0).map (fun n => -(n : Int))
  | cs => (parseDigitsAux cs 0).map (fun n => (n : Int))

/-- Outcome of _do_stack: a normal return carrying the error-sink writes,
the stdout writes and the returned directive, or an exception that escaped
to the dispatch loop together with the stdout writes made before it. -/
inductive DoStackRes where
  | ret (errWrites : List String) (outWrites : List String) (d : Directive)
  | raised (outWrites : List String) (e : String)
deriving DecidableEq

/-- basic_shell.py _do_stack (lines 94-115): with no arguments dump the
stack (an AttributeError from the dump escapes to the dispatch loop) and
return None; with more than one argument, or a non-integer, or a negative
depth, write a message to stderr and return None; otherwise return the
depth as the exit directive. -/
def do_stack (root_prompt : String) (stack : List Mode)
    (args : List String) : DoStackRes :=
  if args = [] then
    match dump_stack root_prompt stack with
    | (w, Except.ok ()) => DoStackRes.ret [] w Directive.none
    | (w, Except.error e) => DoStackRes.raised w e
  else if 1 < args.length then
    DoStackRes.ret ["stack: too many arguments: " ++ pyArgsRepr args ++ "\n"]
      [] Directive.none
  else
    match pyInt? (args.headD "") with
    | Option.none =>
        DoStackRes.ret
          ["stack: depth is not an integer: " ++ args.headD "" ++ "\n"]
          [] Directive.none
    | Option.some depth =>
        if depth < 0 then
          DoStackRes.ret ["stack: negative depth: " ++ toString depth ++ "\n"]
            [] Directive.none
        else DoStackRes.ret [] [] (Directive.int depth)

/-- The context property of base.py lines 422-434: index the mode stack at
-1 and return the context field; on an empty stack the indexing raises
IndexError. -/
def contextProperty (stack : List Mode) :
    Except Unit (List (String × String)) :=
  match stack.getLast? with
  | Option.some m => Except.ok m.context
  | Option.none => Except.error ()

/-- The parent property of base.py lines 463-466: index the mode stack at
-1 and return the shell field; on an empty stack the indexing raises
IndexError. -/
def parentProperty (stack : List Mode) : Except Unit Nat :=
  match stack.getLast? with
  | Option.some m => Except.ok m.shell
  | Option.none => Except.error ()

end EasyShell

namespace EasyShell

/-- Claim C1: in the dispatch loop, the string root terminates the loop iff
the mode stack is non-empty (a root session absorbs it and keeps running);
the string all and True always terminate the loop; an integer n terminates
the loop with the directive returned unchanged when the current depth d
satisfies d > n, and is treated as continue when d = n. -/
theorem C1_dispatch_exit_directives (d : Nat) (n : Int) :
    cmdloop_step d (Directive.str "root")
      = (if d = 0 then StepResult.running
         else StepResult.terminated (Directive.str "root"))
    ∧ cmdloop_step d (Directive.str "all")
      = StepResult.terminated (Directive.str "all")
    ∧ cmdloop_step d (Directive.bool true)
      = StepResult.terminated (Directive.bool true)
    ∧ ((d : Int) > n → cmdloop_step d (Directive.int n)
      = StepResult.terminated (Directive.int n))
    ∧ ((d : Int) = n → cmdloop_step d (Directive.int n) = StepResult.running) := by
  refine ⟨?_, ?_, ?_, ?_, ?_⟩
  · by_cases h : d = 0 <;> simp [cmdloop_step, afterIntChecks, pyEq, h]
  · simp [cmdloop_step, afterIntChecks, pyEq]
  · simp [cmdloop_step, afterIntChecks, pyEq]
  · intro h; simp [cmdloop_step, h]
  · intro h; simp [cmdloop_step, h]

/-- Witness for C1 at concrete inputs: depth 2 with directive 1 terminates
returning 1, depth 1 with directive 1 continues, a root session absorbs the
string root, and a subshell at depth 3 terminates on it. -/
theorem C1_dispatch_exit_directives_witness :
    cmdloop_step 2 (Directive.int 1) = StepResult.terminated (Directive.int 1)
    ∧ cmdloop_step 1 (Directive.int 1) = StepResult.running
    ∧ cmdloop_step 0 (Directive.str "root") = StepResult.running
    ∧ cmdloop_step 3 (Directive.str "root")
      = StepResult.terminated (Directive.str "root") := by
  refine ⟨(C1_dispatch_exit_directives 2 1).2.2.2.1 (by decide),
          (C1_dispatch_exit_directives 1 1).2.2.2.2 (by decide), ?_, ?_⟩
  · have h := (C1_dispatch_exit_directives 0 0).1
    simpa using h
  · have h := (C1_dispatch_exit_directives 3 0).1
    simpa using h

/-- Claim C2: the parent translates the terminal directive of a subshell as
follows: True (exit to parent) becomes the falsy None, on which the parent
dispatch loop keeps running; the strings root and all and any integer are
returned unchanged; and a falsy handler return value means no child session
is created at all, the wrapper returning None. -/
theorem C2_subshell_translation (d : Nat) (n : Int) (c : Directive)
    (ret : SubshellRetval) :
    launch_subshell_translate (Directive.bool true) = Directive.none
    ∧ cmdloop_step d (launch_subshell_translate (Directive.bool true))
      = StepResult.running
    ∧ launch_subshell_translate (Directive.str "root") = Directive.str "root"
    ∧ launch_subshell_translate (Directive.str "all") = Directive.str "all"
    ∧ launch_subshell_translate (Directive.int n) = Directive.int n
    ∧ (ret.truthy = false → subshell_inner ret c = (false, Directive.none)) := by
  refine ⟨rfl, ?_, rfl, rfl, rfl, ?_⟩
  · simp [launch_subshell_translate, cmdloop_step, afterIntChecks, pyEq]
  · intro h; simp [subshell_inner, h]

/-- Witness for C2 at a concrete input: a falsy subshell handler return
creates no session, and the remaining conjuncts are evaluated at depth 1
and directive 5. -/
theorem C2_subshell_translation_witness :
    subshell_inner SubshellRetval.falsy (Directive.str "all")
      = (false, Directive.none)
    ∧ launch_subshell_translate (Directive.int 5) = Directive.int 5 :=
  ⟨(C2_subshell_translation 1 5 (Directive.str "all") SubshellRetval.falsy).2.2.2.2.2
      (by decide),
   (C2_subshell_translation 1 5 (Directive.str "all") SubshellRetval.falsy).2.2.2.2.1⟩

/-- Claim C3 (code evaluation at the failing input): at a root session
(mode-stack depth 0), the directive 1 — an ExitToDepth deeper than the
stack — terminates the dispatch loop, because the Python membership test
puts the int 1 in the set containing all and True (1 == True); and the
directive 2 is silently treated as continue with no rejection or logging.
This contradicts the claim that such directives are defensively rejected
and never terminate the loop. -/
theorem C3_exit_to_depth_below_stack :
    cmdloop_step 0 (Directive.int 1) = StepResult.terminated (Directive.int 1)
    ∧ cmdloop_step 0 (Directive.int 2) = StepResult.running := by
  constructor <;> rfl

/-- Claim C4: the arity wrapper delegates to the underlying handler exactly
when the declared rule allows the argument count (star always, question
mark iff n ≤ 1, plus iff n ≥ 1, an exact integer iff n equals it, a list
iff n is a member), and on a violation writes a message carrying the
command name, the expected shape, the actual count and the argument values,
does not invoke the handler, and returns the falsy None. -/
theorem C4_arity_guard {α : Type} (nargs : Nargs) (f : String → List String → α)
    (cmd : String) (args : List String) :
    command_inner nargs f cmd args =
      (if arityAllows nargs args.length = true
       then GuardResult.invoked (f cmd args)
       else GuardResult.rejected ⟨cmd, nargs, args.length, args⟩) := by
  cases nargs with
  | star => rfl
  | quest =>
      by_cases h : 1 < args.length
      · simp [command_inner, arityAllows, h, Nat.not_le.mpr h]
      · simp [command_inner, arityAllows, h, Nat.not_lt.mp h]
  | plus =>
      by_cases h : args.length = 0
      · simp [command_inner, arityAllows, h]
      · simp [command_inner, arityAllows, h, Nat.one_le_iff_ne_zero.mpr h]
  | exact N =>
      by_cases h : args.length = N
      · simp [command_inner, arityAllows, h]
      · simp [command_inner, arityAllows, h]
  | nlist l =>
      by_cases h : args.length ∈ l
      · simp [command_inner, arityAllows, h]
      · simp [command_inner, arityAllows, h]

/-- Claim C5: a line whose first default-rule token is registered as an
internal command is dispatched with the default tokenization, with the same
result under any two parse-line overrides; the override is consulted only
when the first token is not internal. -/
theorem C5_internal_commands_default_rule (split : String → List String)
    (internalCmds : List String)
    (ov₁ ov₂ : String → String × List String)
    (line t : String) (ts : List String)
    (hne : line ≠ "")
    (hcm : isCommentLine line = false)
    (heof : line ≠ EOF)
    (hsp : split line = t :: ts) :
    (internalCmds.contains t = true →
      exec_line_resolve split internalCmds ov₁ line = Option.some (t, ts)
      ∧ exec_line_resolve split internalCmds ov₁ line
        = exec_line_resolve split internalCmds ov₂ line)
    ∧ (internalCmds.contains t = false →
      exec_line_resolve split internalCmds ov₁ line = Option.some (ov₁ line)) := by
  constructor
  · intro h
    have h₂ : t ∈ internalCmds := by simpa using h
    constructor <;> simp [exec_line_resolve, hne, hcm, hsp, heof, h₂]
  · intro h
    have h₂ : t ∉ internalCmds := by simpa using h
    simp [exec_line_resolve, hne, hcm, hsp, heof, h₂]

/-- Witness for C5 at a concrete input: under a tokenizer that splits the
line into the internal command stack and one argument, dispatch uses the
default rule and ignores the override. -/
theorem C5_internal_commands_default_rule_witness :
    exec_line_resolve (fun l => if l = "stack 1" then ["stack", "1"] else [])
      ["stack"] (fun _ => ("X", ["Y"])) "stack 1"
      = Option.some ("stack", ["1"]) :=
  ((C5_internal_commands_default_rule
      (fun l => if l = "stack 1" then ["stack", "1"] else [])
      ["stack"] (fun _ => ("X", ["Y"])) (fun _ => ("Z", []))
      "stack 1" "stack" ["1"]
      (by decide) (by decide) (by decide) (by decide)).1 (by decide)).1

/-- Claim C6 (code evaluation at the failing input): a duplicate command,
helper or completer name makes registry construction fail, but with a bare
NameError — the raise site names the undefined PyShellError — carrying no
information about the colliding name or the competing handlers; a
collision-free declaration list builds the maps successfully. -/
theorem C6_duplicate_registration_nameerror :
    build_cmd_maps
        [⟨"_do_a", ["foo"], true, false⟩, ⟨"_do_b", ["foo"], true, false⟩]
      = Except.error (PyError.nameError "PyShellError")
    ∧ build_cmd_maps
        [⟨"_do_a", ["foo"], true, false⟩, ⟨"_do_b", ["bar"], false, true⟩]
      = Except.ok ⟨[("foo", "_do_a"), ("bar", "_do_b")],
                   [("foo", "_do_a")], [("bar", "_do_b")]⟩
    ∧ build_helper_map [⟨"help_a", ["foo"]⟩, ⟨"help_b", ["foo"]⟩]
      = Except.error (PyError.nameError "PyShellError")
    ∧ build_completer_map [⟨"comp_a", ["foo"]⟩, ⟨"comp_b", ["foo"]⟩]
      = Except.error (PyError.nameError "PyShellError") :=
  ⟨rfl, rfl, rfl, rfl⟩

/-- Claim C7: a completion query cycle starting at index zero on the first
token computes exactly the visible command names having the text as a
prefix — a name is a candidate iff it is a visible command starting with
the text, the candidate list has no duplicates when the visible names do
not, and the driver installs exactly this list as the cycle cache both for
an empty line and while the cursor is inside the first token. -/
theorem C7_first_token_completion (visibleCmds : List String)
    (hnd : visibleCmds.Nodup) (text : String) :
    (∀ name, name ∈ complete_cmds visibleCmds text ↔
      name ∈ visibleCmds ∧ pyStartsWith name text = true)
    ∧ (complete_cmds visibleCmds text).Nodup
    ∧ (∀ cache completerMap completerFn,
        (driver_completer cache visibleCmds completerMap completerFn
            [] text 0).1 = complete_cmds visibleCmds text
        ∧ (driver_completer cache visibleCmds completerMap completerFn
            [text] text 0).1 = complete_cmds visibleCmds text) := by
  refine ⟨?_, ?_, ?_⟩
  · intro name
    simp [complete_cmds, List.mem_filter]
  · exact hnd.filter _
  · intro cache completerMap completerFn
    constructor <;> simp [driver_completer]

/-- Witness for C7 at a concrete input: among the visible commands exit,
end and history, completing the text e yields exactly exit and end, with no
duplicates. -/
theorem C7_first_token_completion_witness :
    ("exit" ∈ complete_cmds ["exit", "end", "history"] "e"
      ∧ "history" ∉ complete_cmds ["exit", "end", "history"] "e")
    ∧ (complete_cmds ["exit", "end", "history"] "e").Nodup := by
  have h := C7_first_token_completion ["exit", "end", "history"] (by decide) "e"
  refine ⟨⟨(h.1 "exit").mpr (by decide), ?_⟩, h.2.1⟩
  intro hm
  have := (h.1 "history").mp hm
  revert this
  decide

/-- Claim C8 counterexample: with an empty cached candidate list and
candidate index one, the driver does not return a sentinel value — indexing
the cache raises an IndexError (the error case), contradicting the claim
that the driver returns a no-more-candidates value rather than failing. -/
theorem C8_counterexample_index_error :
    (driver_completer [] [] [] (fun _ _ _ => []) ["h"] "" 1).2
      = Except.error () := rfl

/-- Claim C8 as amended: on a candidate index greater than zero the cache
is left unchanged and is indexed directly: the element is returned when the
index is within bounds, and an IndexError is raised — which the editing
facility silently discards, ending the cycle — once the index equals or
exceeds the cache length, including for an empty cache. -/
theorem C8_cache_indexing (cache visibleCmds completerMap : List String)
    (completerFn : String → Option (List String) → String → List String)
    (toks : List String) (text : String) (state : Nat) (h : state ≠ 0) :
    (driver_completer cache visibleCmds completerMap completerFn
        toks text state).1 = cache
    ∧ (∀ s, cache.get? state = Option.some s →
        (driver_completer cache visibleCmds completerMap completerFn
            toks text state).2 = Except.ok s)
    ∧ (cache.length ≤ state →
        (driver_completer cache visibleCmds completerMap completerFn
            toks text state).2 = Except.error ()) := by
  refine ⟨by simp [driver_completer, h], ?_, ?_⟩
  · intro s hs
    rw [List.get?_eq_getElem?] at hs
    simp [driver_completer, h, pyIndex, hs]
  · intro hl
    have hg : cache.get? state = Option.none := List.get?_eq_none.mpr hl
    rw [List.get?_eq_getElem?] at hg
    simp [driver_completer, h, pyIndex, hg]

/-- Witness for C8 at concrete inputs: with cache [a, b] index one returns
b and index five raises, and with an empty cache index one raises. -/
theorem C8_cache_indexing_witness :
    (driver_completer ["a", "b"] [] [] (fun _ _ _ => []) ["h"] "" 1).2
      = Except.ok "b"
    ∧ (driver_completer ["a", "b"] [] [] (fun _ _ _ => []) ["h"] "" 5).2
      = Except.error ()
    ∧ (driver_completer [] [] [] (fun _ _ _ => []) ["h"] "" 1).2
      = Except.error () :=
  ⟨(C8_cache_indexing ["a", "b"] [] [] (fun _ _ _ => []) ["h"] "" 1
      (by decide)).2.1 "b" (by decide),
   (C8_cache_indexing ["a", "b"] [] [] (fun _ _ _ => []) ["h"] "" 5
      (by decide)).2.2 (by decide),
   (C8_cache_indexing [] [] [] (fun _ _ _ => []) ["h"] "" 1
      (by decide)).2.2 (by decide)⟩

/-- Claim C9 (code evaluation at the failing input): invoking the stack
command with no arguments on a session with one mode frame writes the root
index line and then raises AttributeError, because the dump loop reads the
attribute prompt_display that _Mode never sets; with the single argument 2
the command returns the directive 2 (the depth to exit to). -/
theorem C9_stack_command :
    do_stack "PlayBoy" [⟨0, "foo", ["x"], "fooP", []⟩] []
      = DoStackRes.raised ["0    PlayBoy", "\n"] "AttributeError: prompt_display"
    ∧ do_stack "PlayBoy" [⟨0, "foo", ["x"], "fooP", []⟩] ["2"]
      = DoStackRes.ret [] [] (Directive.int 2) := by
  constructor <;> rfl

/-- Claim C10: on a root session (empty mode stack) both the context
property and the parent property fail with an out-of-range IndexError
rather than returning an empty dictionary or a null parent; on a non-empty
stack both succeed. -/
theorem C10_root_properties (stack : List Mode) :
    (stack = [] → contextProperty stack = Except.error ()
      ∧ parentProperty stack = Except.error ())
    ∧ (stack ≠ [] →
      (∃ c, contextProperty stack = Except.ok c)
      ∧ (∃ p, parentProperty stack = Except.ok p)) := by
  constructor
  · intro h
    subst h
    exact ⟨rfl, rfl⟩
  · intro h
    have hs : stack.getLast?.isSome := List.getLast?_isSome.mpr h
    obtain ⟨m, hm⟩ := Option.isSome_iff_exists.mp hs
    exact ⟨⟨m.context, by simp [contextProperty, hm]⟩,
           ⟨m.shell, by simp [parentProperty, hm]⟩⟩

/-- Witness for C10 at concrete inputs: the empty stack yields IndexError
for both properties, and a one-frame stack yields successes. -/
theorem C10_root_properties_witness :
    contextProperty [] = Except.error ()
    ∧ parentProperty [] = Except.error ()
    ∧ (∃ c, contextProperty [⟨7, "foo", [], "p", [("k", "v")]⟩] = Except.ok c)
    ∧ (∃ p, parentProperty [⟨7, "foo", [], "p", [("k", "v")]⟩] = Except.ok p) := by
  have h0 := (C10_root_properties []).1 rfl
  have h1 := (C10_root_properties [⟨7, "foo", [], "p", [("k", "v")]⟩]).2
    (by decide)
  exact ⟨h0.1, h0.2, h1.1, h1.2⟩

end EasyShell
